import Mathlib

/-!
Verification of the calculation engine of the CM True Cost Calculator
(`streamlit_app.py`).

The engine consists of five pure functions — `percent_to_decimal`,
`validate_rows`, `compute_costs`, `required_fee_from_overhead_profit` and
the module-level `coverage` helper — plus a handful of module-level
derived quantities (overhead dollars, profit dollars, total fee, and the
six coverage cells of the coverage table).

Modelling choices:
* Python floats are modelled as rationals (`ℚ`); every formula in the
  source is plain field arithmetic, so `ℚ` carries the intended values.
* A scalar cell that may fail to parse as a number (free-text input,
  missing column) is modelled as `Option ℚ`: `none` means "does not parse
  as a number"; both `float(x)` in `percent_to_decimal` and
  `pd.to_numeric(..., errors="coerce").fillna(0.0)` in `compute_costs`
  send such a value to `0.0`.
* Python's `None` sentinel ("no result") is `Option.none`.
* A pandas DataFrame row of the team table is a `Row`; the DataFrame is a
  `List Row` in display order; `df.iterrows()` enumerates positionally
  from 0.
-/

/-- A row of the team table: role name plus the four numeric cells.
`none` models a missing or non-numeric cell. -/
structure Row where
  role : String
  pre : Option ℚ
  con : Option ℚ
  post : Option ℚ
  comp : Option ℚ
  deriving Repr, DecidableEq

/-- `percent_to_decimal` from the source: `float(x)` failing yields `0.0`;
a parsed value `v > 1.0` is divided by `100.0`; otherwise `v` is returned
as-is. -/
def percent_to_decimal : Option ℚ → ℚ
  | none => 0
  | some v => if v > 1 then v / 100 else v

/-- Rounding of a rational to the nearest integer (half rounds up). -/
def roundQ (q : ℚ) : ℤ :=
  ⌊q + 1 / 2⌋

/-- Rendering of a rational to one decimal place, modelling Python's
`f"{x:.1f}"` (value rounded to the nearest tenth). -/
def fmt1 (q : ℚ) : String :=
  let n : ℤ := roundQ (q * 10)
  let sign := if n < 0 then "-" else ""
  sign ++ toString (n.natAbs / 10) ++ "." ++ toString (n.natAbs % 10)

/-- The normalized phase-percentage sum of a row, as computed inside
`validate_rows`. -/
def rowTotal (r : Row) : ℚ :=
  percent_to_decimal r.pre + percent_to_decimal r.con + percent_to_decimal r.post

/-- The warning string `validate_rows` emits for a row: `i` is the 1-based
row number. -/
def warning_string (i : ℕ) (role : String) (total : ℚ) : String :=
  "Row " ++ toString i ++ " (" ++ role ++ "): Pre+Con+Post = " ++
    fmt1 (total * 100) ++ "% (should be ≤ 100%)."

/-- Loop body of `validate_rows`, carrying the 0-based positional index of
`df.iterrows()`. -/
def validate_rows_aux : ℕ → List Row → List String
  | _, [] => []
  | i, r :: rs =>
    (if rowTotal r > 10001 / 10000 then
      [warning_string (i + 1) r.role (rowTotal r)]
    else []) ++ validate_rows_aux (i + 1) rs

/-- `validate_rows` from the source: one warning per row whose normalized
`Pre+Con+Post` sum exceeds `1.0001`, in row order. -/
def validate_rows (df : List Row) : List String :=
  validate_rows_aux 0 df

/-- The computed columns `compute_costs` adds to (its copy of) the
dataframe, together with the cleaned numeric input columns. -/
structure ComputedRow where
  role : String
  pre_pct : ℚ
  con_pct : ℚ
  post_pct : ℚ
  comp : ℚ
  pre_dec : ℚ
  con_dec : ℚ
  post_dec : ℚ
  base_annual : ℚ
  loaded_annual : ℚ
  project_year_fraction : ℚ
  project_cost : ℚ
  deriving Repr, DecidableEq

/-- Per-row computation of `compute_costs`: numeric columns are cleaned
(`to_numeric` with coercion, `fillna(0.0)`), percent columns are
normalized, and the loaded annual, project-year fraction and project cost
columns are derived. -/
def computeRow (pre_f con_f post_f burden_pct : ℚ) (r : Row) : ComputedRow :=
  let prePct := r.pre.getD 0
  let conPct := r.con.getD 0
  let postPct := r.post.getD 0
  let comp := r.comp.getD 0
  let preDec := percent_to_decimal (some prePct)
  let conDec := percent_to_decimal (some conPct)
  let postDec := percent_to_decimal (some postPct)
  let base := comp
  let loaded := base * (1 + burden_pct)
  let pyf := preDec * pre_f + conDec * con_f + postDec * post_f
  { role := r.role
    pre_pct := prePct, con_pct := conPct, post_pct := postPct, comp := comp
    pre_dec := preDec, con_dec := conDec, post_dec := postDec
    base_annual := base
    loaded_annual := loaded
    project_year_fraction := pyf
    project_cost := loaded * pyf }

/-- `compute_costs` from the source: phase week counts become fractions of
a year (divided by 52), every row of the (copied) dataframe gets its
computed columns, and the total payroll cost is the sum of the Project
Cost column. -/
def compute_costs (df : List Row) (pre_w con_w post_w burden_pct : ℚ) :
    List ComputedRow × ℚ :=
  let pre_f := pre_w / 52
  let con_f := con_w / 52
  let post_f := post_w / 52
  let out := df.map (computeRow pre_f con_f post_f burden_pct)
  (out, (out.map (fun r => r.project_cost)).sum)

/-- `required_fee_from_overhead_profit` from the source: `None` when the
denominator `1 - overhead - profit` is non-positive, the grossed-up fee
otherwise. -/
def required_fee_from_overhead_profit
    (total_payroll_cost overhead_pct profit_pct : ℚ) : Option ℚ :=
  let denom := 1 - overhead_pct - profit_pct
  if denom ≤ 0 then none
  else some (total_payroll_cost / denom)

/-- `coverage` from the source: `None` when the denominator is
non-positive, the percentage otherwise. -/
def coverage (proposal_fee denom : ℚ) : Option ℚ :=
  if denom ≤ 0 then none
  else some (proposal_fee / denom * 100)

/-- Module-level `overhead_dollars = project_budget * overhead_pct`. -/
def overhead_dollars (project_budget overhead_pct : ℚ) : ℚ :=
  project_budget * overhead_pct

/-- Module-level `profit_dollars = project_budget * profit_pct`. -/
def profit_dollars (project_budget profit_pct : ℚ) : ℚ :=
  project_budget * profit_pct

/-- Module-level `total_fee = total_payroll_cost + overhead_dollars +
profit_dollars`. -/
def total_fee (total_payroll_cost ovd prd : ℚ) : ℚ :=
  total_payroll_cost + ovd + prd

/-- Python truthiness of the `rom_fee` value: `None` and `0.0` are falsey,
every other float is truthy. -/
def truthy : Option ℚ → Bool
  | none => false
  | some q => decide (q ≠ 0)

/-- One ROM-side coverage cell: the source computes
`coverage(fee, rom_fee) if rom_fee else None`. -/
def rom_coverage (fee : ℚ) (rom_fee : Option ℚ) : Option ℚ :=
  if truthy rom_fee then coverage fee (rom_fee.getD 0) else none

/-- The six coverage cells of the coverage table. -/
structure CoverageResults where
  pay_low : Option ℚ
  pay_mid : Option ℚ
  pay_high : Option ℚ
  rom_low : Option ℚ
  rom_mid : Option ℚ
  rom_high : Option ℚ
  deriving Repr, DecidableEq

/-- The module-level coverage calculations: each of the three proposals is
tested against `total_payroll_cost` and against `rom_fee`. -/
def coverage_table (low_fee mid_fee high_fee total_payroll_cost : ℚ)
    (rom_fee : Option ℚ) : CoverageResults :=
  { pay_low := coverage low_fee total_payroll_cost
    pay_mid := coverage mid_fee total_payroll_cost
    pay_high := coverage high_fee total_payroll_cost
    rom_low := rom_coverage low_fee rom_fee
    rom_mid := rom_coverage mid_fee rom_fee
    rom_high := rom_coverage high_fee rom_fee }

/-- Replacing every missing/non-numeric cell of a row by the number `0.0`,
the coercion `compute_costs` applies before calculating. -/
def cleanRow (r : Row) : Row :=
  { role := r.role
    pre := some (r.pre.getD 0)
    con := some (r.con.getD 0)
    post := some (r.post.getD 0)
    comp := some (r.comp.getD 0) }

/-- State-passing embedding of the `compute_costs` call as the shell makes
it: the source starts with `out = df.copy()` and every later column write
targets `out` only, so the caller's dataframe after the call is the value
it passed in; the first component is the caller's dataframe after the
call. -/
def compute_costs_with_frame (df : List Row) (pre_w con_w post_w burden_pct : ℚ) :
    List Row × List ComputedRow × ℚ :=
  let out := df
  let res := compute_costs out pre_w con_w post_w burden_pct
  (df, res.1, res.2)

example : percent_to_decimal (some 30) = 3 / 10 := by norm_num [percent_to_decimal]
example : percent_to_decimal (some (3 / 10)) = 3 / 10 := by norm_num [percent_to_decimal]
example : percent_to_decimal none = 0 := rfl
example :
    (compute_costs [⟨"CM", some 30, some 30, some 30, some 100000⟩]
      26 26 0 (15 / 100)).2 = 34500 := by
  norm_num [compute_costs, computeRow, percent_to_decimal]

/-- C4: a value parsing as a number `x > 1.0` is divided by 100; a value
parsing as `x ≤ 1.0` (negative included) is returned unchanged; an
unparsable value yields `0.0`, and the function is total (never
fails/throws). -/
theorem percent_to_decimal_spec (x : ℚ) :
    (1 < x → percent_to_decimal (some x) = x / 100) ∧
    (x ≤ 1 → percent_to_decimal (some x) = x) ∧
    percent_to_decimal none = 0 := by
  refine ⟨fun h => ?_, fun h => ?_, rfl⟩
  · simp [percent_to_decimal, h]
  · simp [percent_to_decimal, not_lt.mpr h]

/-- Witness for C4 at the concrete inputs 30 (percentage form) and -5
(already-a-fraction form, negative). -/
theorem percent_to_decimal_spec_witness :
    ((1 : ℚ) < 30 ∧ percent_to_decimal (some 30) = 30 / 100) ∧
    ((-5 : ℚ) ≤ 1 ∧ percent_to_decimal (some (-5)) = -5) :=
  ⟨⟨by norm_num, (percent_to_decimal_spec 30).1 (by norm_num)⟩,
   ⟨by norm_num, (percent_to_decimal_spec (-5)).2.1 (by norm_num)⟩⟩

/-- C2: `required_fee_from_overhead_profit` returns
`total_payroll_cost / (1 - overhead_pct - profit_pct)` when the
denominator is positive and the `None` sentinel exactly when the
denominator is non-positive. -/
theorem required_fee_spec (tpc o p : ℚ) :
    (0 < 1 - o - p →
      required_fee_from_overhead_profit tpc o p = some (tpc / (1 - o - p))) ∧
    (required_fee_from_overhead_profit tpc o p = none ↔ 1 - o - p ≤ 0) := by
  constructor
  · intro h
    simp [required_fee_from_overhead_profit, not_le.mpr h]
  · simp only [required_fee_from_overhead_profit]
    split_ifs with h <;> simp [h]

/-- Witness for C2: the spec's two concrete examples,
`required_fee(100000, 0.60, 0.45) = None` and
`required_fee(100000, 0.10, 0.05) = 100000 / 0.85`. -/
theorem required_fee_spec_witness :
    required_fee_from_overhead_profit 100000 (60/100) (45/100) = none ∧
    ((0:ℚ) < 1 - 10/100 - 5/100 ∧
      required_fee_from_overhead_profit 100000 (10/100) (5/100) =
        some (100000 / (1 - 10/100 - 5/100))) :=
  ⟨(required_fee_spec 100000 (60/100) (45/100)).2.mpr (by norm_num),
   ⟨by norm_num, (required_fee_spec 100000 (10/100) (5/100)).1 (by norm_num)⟩⟩

/-- C3: `coverage` returns `proposal / denominator * 100` when the
denominator is positive and the `None` sentinel exactly when the
denominator is non-positive; in particular `coverage(50000, 100000) = 50`
and `coverage(150000, 100000) = 150`. -/
theorem coverage_spec :
    (∀ x d : ℚ, (0 < d → coverage x d = some (x / d * 100)) ∧
      (coverage x d = none ↔ d ≤ 0)) ∧
    coverage 50000 100000 = some 50 ∧
    coverage 150000 100000 = some 150 := by
  refine ⟨fun x d => ⟨fun h => ?_, ?_⟩, ?_, ?_⟩
  · simp [coverage, not_le.mpr h]
  · simp only [coverage]
    split_ifs with h <;> simp [h]
  · norm_num [coverage]
  · norm_num [coverage]

/-- Witness for C3 at a concrete positive denominator and at denominator
zero. -/
theorem coverage_spec_witness :
    ((0:ℚ) < 4 ∧ coverage 3 4 = some (3 / 4 * 100)) ∧
    (coverage 3 0 = none ↔ (0:ℚ) ≤ 0) :=
  ⟨⟨by norm_num, (coverage_spec.1 3 4).1 (by norm_num)⟩, (coverage_spec.1 3 0).2⟩

/-- C8: every core function is deterministic — equal inputs give equal
outputs, with no hidden state (each is embedded as a pure function of its
arguments alone). -/
theorem engine_deterministic :
    (∀ x y : Option ℚ, x = y → percent_to_decimal x = percent_to_decimal y) ∧
    (∀ df df' : List Row, df = df' → validate_rows df = validate_rows df') ∧
    (∀ (df df' : List Row) (a a' b b' c c' d d' : ℚ),
      df = df' → a = a' → b = b' → c = c' → d = d' →
      compute_costs df a b c d = compute_costs df' a' b' c' d') ∧
    (∀ t t' o o' p p' : ℚ, t = t' → o = o' → p = p' →
      required_fee_from_overhead_profit t o p =
        required_fee_from_overhead_profit t' o' p') ∧
    (∀ x x' d d' : ℚ, x = x' → d = d' → coverage x d = coverage x' d') := by
  refine ⟨?_, ?_, ?_, ?_, ?_⟩ <;> intros <;> subst_vars <;> rfl

/-- Witness for C8 at concrete equal inputs. -/
theorem engine_deterministic_witness :
    percent_to_decimal (some 30) = percent_to_decimal (some 30) ∧
    coverage 50000 100000 = coverage 50000 100000 :=
  ⟨engine_deterministic.1 (some 30) (some 30) rfl,
   engine_deterministic.2.2.2.2 50000 50000 100000 100000 rfl rfl⟩

/-- C1: for every roster, phase durations and burden, `compute_costs`
computes for each role entry the phase fractions `weeks / 52`, the
unclamped `project_year_fraction` from the normalized percentages,
`loaded_annual = total_compensation * (1 + burden_pct)` and
`project_cost = loaded_annual * project_year_fraction`; the returned
total is the sum of the project costs, it is `0` for the empty roster,
and on the spec's concrete roster it is `34500`. -/
theorem compute_costs_spec :
    (∀ (df : List Row) (pre_w con_w post_w burden_pct : ℚ),
      (compute_costs df pre_w con_w post_w burden_pct).1 =
        df.map (fun r =>
          { role := r.role
            pre_pct := r.pre.getD 0
            con_pct := r.con.getD 0
            post_pct := r.post.getD 0
            comp := r.comp.getD 0
            pre_dec := percent_to_decimal (some (r.pre.getD 0))
            con_dec := percent_to_decimal (some (r.con.getD 0))
            post_dec := percent_to_decimal (some (r.post.getD 0))
            base_annual := r.comp.getD 0
            loaded_annual := r.comp.getD 0 * (1 + burden_pct)
            project_year_fraction :=
              percent_to_decimal (some (r.pre.getD 0)) * (pre_w / 52) +
              percent_to_decimal (some (r.con.getD 0)) * (con_w / 52) +
              percent_to_decimal (some (r.post.getD 0)) * (post_w / 52)
            project_cost :=
              r.comp.getD 0 * (1 + burden_pct) *
                (percent_to_decimal (some (r.pre.getD 0)) * (pre_w / 52) +
                 percent_to_decimal (some (r.con.getD 0)) * (con_w / 52) +
                 percent_to_decimal (some (r.post.getD 0)) * (post_w / 52)) }) ∧
      (compute_costs df pre_w con_w post_w burden_pct).2 =
        ((compute_costs df pre_w con_w post_w burden_pct).1.map
          (fun r => r.project_cost)).sum) ∧
    (∀ pre_w con_w post_w burden_pct : ℚ,
      compute_costs [] pre_w con_w post_w burden_pct = ([], 0)) ∧
    ((compute_costs [⟨"CM", some 30, some 30, some 30, some 100000⟩]
        26 26 0 (15/100)).1.map
        (fun r => (r.loaded_annual, r.project_year_fraction, r.project_cost)) =
      [(115000, 3/10, 34500)] ∧
     (compute_costs [⟨"CM", some 30, some 30, some 30, some 100000⟩]
        26 26 0 (15/100)).2 = 34500) := by
  refine ⟨fun df pre_w con_w post_w burden_pct => ⟨rfl, rfl⟩,
    fun pre_w con_w post_w burden_pct => rfl, ?_, ?_⟩
  · norm_num [compute_costs, computeRow, percent_to_decimal]
  · norm_num [compute_costs, computeRow, percent_to_decimal]

/-- C7: missing or non-numeric cells are coerced to `0.0` before
calculation — replacing them by a literal `0.0` leaves the result of
`compute_costs` unchanged — and `compute_costs` always returns a full
result (one computed row per input row, no exception). -/
theorem compute_costs_coercion (df : List Row) (pre_w con_w post_w burden_pct : ℚ) :
    compute_costs (df.map cleanRow) pre_w con_w post_w burden_pct =
      compute_costs df pre_w con_w post_w burden_pct ∧
    (compute_costs df pre_w con_w post_w burden_pct).1.length = df.length := by
  constructor
  · simp only [compute_costs, List.map_map]
    rfl
  · simp [compute_costs]

/-- C9: `compute_costs` works on a copy: the input roster is unchanged
after the call, the returned computed roster is a separate value carrying
the same role names and (cleaned) input cells row by row. -/
theorem compute_costs_frame (df : List Row) (pre_w con_w post_w burden_pct : ℚ) :
    (compute_costs_with_frame df pre_w con_w post_w burden_pct).1 = df ∧
    (compute_costs_with_frame df pre_w con_w post_w burden_pct).2 =
      compute_costs df pre_w con_w post_w burden_pct ∧
    (compute_costs df pre_w con_w post_w burden_pct).1.map (fun r => r.role) =
      df.map (fun r => r.role) ∧
    (compute_costs df pre_w con_w post_w burden_pct).1.map
        (fun r => (r.pre_pct, r.con_pct, r.post_pct, r.comp)) =
      df.map (fun r => (r.pre.getD 0, r.con.getD 0, r.post.getD 0, r.comp.getD 0)) := by
  refine ⟨rfl, rfl, ?_, ?_⟩
  · simp only [compute_costs, List.map_map]
    rfl
  · simp only [compute_costs, List.map_map]
    rfl

/-- C10: with non-negative payroll cost and non-negative overhead and
profit fractions summing below 1, the required fee exists, is at least
the payroll cost, and is monotonically non-decreasing in the overhead and
profit fractions. -/
theorem required_fee_lower_bound_monotone
    (tpc o p o' p' : ℚ) (htpc : 0 ≤ tpc) (ho : 0 ≤ o) (hp : 0 ≤ p)
    (h1 : o + p < 1) (h1' : o' + p' < 1) (hoo : o ≤ o') (hpp : p ≤ p') :
    ∃ f f', required_fee_from_overhead_profit tpc o p = some f ∧
      required_fee_from_overhead_profit tpc o' p' = some f' ∧
      tpc ≤ f ∧ f ≤ f' := by
  have hd : 0 < 1 - o - p := by linarith
  have hd' : 0 < 1 - o' - p' := by linarith
  refine ⟨tpc / (1 - o - p), tpc / (1 - o' - p'), ?_, ?_, ?_, ?_⟩
  · simp [required_fee_from_overhead_profit, not_le.mpr hd]
  · simp [required_fee_from_overhead_profit, not_le.mpr hd']
  · rw [le_div_iff₀ hd]
    nlinarith [mul_nonneg htpc (by linarith : (0:ℚ) ≤ o + p)]
  · rw [div_le_div_iff₀ hd hd']
    nlinarith [mul_le_mul_of_nonneg_left (by linarith : 1 - o' - p' ≤ 1 - o - p) htpc]

/-- Witness for C10 at payroll 100000, overhead 10% vs 20%, profit 5%. -/
theorem required_fee_lower_bound_monotone_witness :
    ∃ f f', required_fee_from_overhead_profit 100000 (1/10) (1/20) = some f ∧
      required_fee_from_overhead_profit 100000 (2/10) (1/20) = some f' ∧
      (100000:ℚ) ≤ f ∧ f ≤ f' :=
  required_fee_lower_bound_monotone 100000 (1/10) (1/20) (2/10) (1/20)
    (by norm_num) (by norm_num) (by norm_num) (by norm_num) (by norm_num)
    (by norm_num) (by norm_num)

/-- Unfolding of the `validate_rows` loop starting at an arbitrary index:
it is the filter of the enumerated roster by the over-allocation test,
mapped to warning strings. -/
theorem validate_rows_aux_eq (df : List Row) :
    ∀ i : ℕ, validate_rows_aux i df =
      ((df.enumFrom i).filter
          (fun q => decide (rowTotal q.2 > 10001 / 10000))).map
        (fun q => warning_string (q.1 + 1) q.2.role (rowTotal q.2)) := by
  induction df with
  | nil => intro i; rfl
  | cons r rs ih =>
    intro i
    simp only [validate_rows_aux, List.enumFrom_cons, List.filter_cons]
    by_cases h : rowTotal r > 10001 / 10000
    · simp [h, ih (i + 1)]
    · simp [h, ih (i + 1)]

/-- C5: `validate_rows` emits, in row order, exactly one warning for each
row whose normalized phase-percentage sum exceeds `1.0001`, naming the
1-based row index and role and showing the sum as a percentage to one
decimal place; a row summing to `1.05` is flagged with `105.0%` and a row
summing to exactly `1.0` is not flagged. -/
theorem validate_rows_spec :
    (∀ df : List Row,
      validate_rows df =
        ((df.enum.filter
            (fun q => decide (rowTotal q.2 > 10001 / 10000))).map
          (fun q => warning_string (q.1 + 1) q.2.role (rowTotal q.2)))) ∧
    validate_rows [⟨"CM", some 35, some 35, some 35, some 0⟩] =
      ["Row 1 (CM): Pre+Con+Post = 105.0% (should be ≤ 100%)."] ∧
    validate_rows [⟨"CM", some 50, some 50, some 0, some 0⟩] = [] := by
  refine ⟨fun df => validate_rows_aux_eq df 0, ?_, ?_⟩
  · have ht : rowTotal ⟨"CM", some 35, some 35, some 35, some 0⟩ = 21/20 := by
      norm_num [rowTotal, percent_to_decimal]
    have hfmt : fmt1 ((21/20 : ℚ) * 100) = "105.0" := by
      have h100 : (21/20 : ℚ) * 100 = 105 := by norm_num
      have hr : roundQ ((105 : ℚ) * 10) = 1050 := by
        rw [roundQ, Int.floor_eq_iff]
        norm_num
      rw [h100]
      simp only [fmt1, hr]
      rfl
    simp only [validate_rows, validate_rows_aux, ht]
    rw [if_pos (by norm_num : (21/20 : ℚ) > 10001/10000)]
    simp only [warning_string, hfmt]
    rfl
  · have ht : rowTotal ⟨"CM", some 50, some 50, some 0, some 0⟩ = 1 := by
      norm_num [rowTotal, percent_to_decimal]
    simp only [validate_rows, validate_rows_aux, ht]
    rw [if_neg (by norm_num : ¬ ((1 : ℚ) > 10001/10000))]
    rfl

/-- C6 counterexample: with payroll cost 100, project budget 0, overhead
50% and profit 0%, `rom_fee = 200` while `total_fee = 100`; for a mid
proposal of 100 the code's "ROM Fee Covered" cell is 50% (denominator
`rom_fee`), whereas coverage against `total_fee`, the denominator the
claim names, would be 100% — so the claim as stated is false of the
code. -/
theorem coverage_table_counterexample :
    required_fee_from_overhead_profit 100 (1/2) 0 = some 200 ∧
    total_fee 100 (overhead_dollars 0 (1/2)) (profit_dollars 0 0) = 100 ∧
    (coverage_table 100 100 100 100
        (required_fee_from_overhead_profit 100 (1/2) 0)).rom_mid = some 50 ∧
    coverage 100 (total_fee 100 (overhead_dollars 0 (1/2)) (profit_dollars 0 0)) =
      some 100 ∧
    some (50 : ℚ) ≠ some 100 := by
  refine ⟨?_, ?_, ?_, ?_, ?_⟩ <;>
    norm_num [required_fee_from_overhead_profit, total_fee, overhead_dollars,
      profit_dollars, coverage_table, rom_coverage, truthy, coverage]

/-- C6 amended: each of the three fee proposals (low, mid, high) is
evaluated independently against both denominators — `total_payroll_cost`
and `rom_fee` (not `total_fee`) — yielding six coverage values, each
independently nullable; the three ROM-side cells are `None` whenever
`rom_fee` is `None` or zero. -/
theorem coverage_table_spec (low mid high tpc : ℚ) (rf : Option ℚ) :
    ((coverage_table low mid high tpc rf).pay_low = coverage low tpc ∧
     (coverage_table low mid high tpc rf).pay_mid = coverage mid tpc ∧
     (coverage_table low mid high tpc rf).pay_high = coverage high tpc) ∧
    (∀ r : ℚ, rf = some r → r ≠ 0 →
      (coverage_table low mid high tpc rf).rom_low = coverage low r ∧
      (coverage_table low mid high tpc rf).rom_mid = coverage mid r ∧
      (coverage_table low mid high tpc rf).rom_high = coverage high r) ∧
    ((rf = none ∨ rf = some 0) →
      (coverage_table low mid high tpc rf).rom_low = none ∧
      (coverage_table low mid high tpc rf).rom_mid = none ∧
      (coverage_table low mid high tpc rf).rom_high = none) := by
  refine ⟨⟨rfl, rfl, rfl⟩, ?_, ?_⟩
  · rintro r rfl hr
    simp [coverage_table, rom_coverage, truthy, hr]
  · rintro (rfl | rfl) <;> simp [coverage_table, rom_coverage, truthy]

/-- Witness for the amended C6 at a concrete positive ROM fee and at a
missing ROM fee. -/
theorem coverage_table_spec_witness :
    (coverage_table 50 100 150 100 (some 200)).rom_mid = coverage 100 200 ∧
    (coverage_table 50 100 150 100 none).rom_low = none :=
  ⟨((coverage_table_spec 50 100 150 100 (some 200)).2.1 200 rfl
      (by norm_num)).2.1,
   ((coverage_table_spec 50 100 150 100 none).2.2 (Or.inl rfl)).1⟩
